import Mathlib

/-!
Verification development for the SUNAT document-processing pipeline
(filename classification, SIRE ledger transformation, fiscal rule engines,
CUI identifier generation, batch statistics and the relational sink).

The definitions below are shallow embeddings of the Python sources under
src/: pure functions become Lean functions, pandas column operations become
row-wise functions over lists of records, fallible operations return Option.
Monetary amounts are embedded as rationals (the sources hold them in
floating-point pandas columns; every predicate and derivation in the rule
engines uses only comparisons, additions and selections, which the rational
embedding reflects exactly).  Python library primitives (int(), float(),
hex(), str.strip()) are modelled by explicit Lean functions restricted to
the plain decimal notation the pipeline actually feeds them.
-/

namespace ParserSunat

/-! ### Python string and number primitives -/

/-- ASCII decimal digit test. -/
def isAsciiDigit (c : Char) : Bool := '0' ≤ c && c ≤ '9'

/-- Numeric value of an ASCII digit character. -/
def digitVal (c : Char) : Nat := c.toNat - '0'.toNat

/-- Value of a non-empty run of decimal digit characters. -/
def digitsToNat (l : List Char) : Nat := l.foldl (fun a c => a * 10 + digitVal c) 0

/-- Python whitespace test used by str.strip(). -/
def isPySpace (c : Char) : Bool :=
  c = ' ' || c = '\t' || c = '\n' || c = '\r' || c = '\x0b' || c = '\x0c'

/-- Model of Python str.strip(): drop whitespace from both ends. -/
def pyStrip (s : String) : String :=
  String.mk (((s.data.dropWhile isPySpace).reverse.dropWhile isPySpace).reverse)

/-- Parse a non-empty all-digit character list, else fail. -/
def parseDigits (cs : List Char) : Option Nat :=
  if cs = [] then none
  else if cs.all isAsciiDigit then some (digitsToNat cs) else none

/-- Model of Python int(str) on plain decimal notation: optional sign and a
non-empty digit run after stripping surrounding whitespace. -/
def pyParseInt (s : String) : Option ℤ :=
  match (pyStrip s).data with
  | '-' :: rest => (parseDigits rest).map (fun n => -(n : ℤ))
  | '+' :: rest => (parseDigits rest).map (fun n => (n : ℤ))
  | cs => (parseDigits cs).map (fun n => (n : ℤ))

/-- Split a character list at the first dot, failing if more than one dot. -/
def splitAtDot (cs : List Char) : Option (List Char × List Char) :=
  match cs.splitOn '.' with
  | [a] => some (a, [])
  | [a, b] => some (a, b)
  | _ => none

/-- Digits before and after an optional dot; at least one digit in total. -/
def parseDecimalParts (cs : List Char) : Option (Nat × Nat × Nat) :=
  match splitAtDot cs with
  | none => none
  | some (intPart, fracPart) =>
    if intPart.all isAsciiDigit && fracPart.all isAsciiDigit
        && !(intPart = [] && fracPart = []) then
      some (digitsToNat intPart, digitsToNat fracPart, fracPart.length)
    else none

/-- Model of Python int(float(str)) on plain decimal notation: parse a
decimal literal and truncate toward zero. -/
def pyParseFloatTrunc (s : String) : Option ℤ :=
  match (pyStrip s).data with
  | '-' :: rest => (parseDecimalParts rest).map (fun p => -(p.1 : ℤ))
  | '+' :: rest => (parseDecimalParts rest).map (fun p => (p.1 : ℤ))
  | cs => (parseDecimalParts cs).map (fun p => (p.1 : ℤ))

/-- Model of pandas to_numeric on a plain decimal literal, as a rational. -/
def pyParseRat (s : String) : Option ℚ :=
  let core : List Char → Option ℚ := fun cs =>
    (parseDecimalParts cs).map
      (fun p => (p.1 : ℚ) + (p.2.1 : ℚ) / ((10 : ℚ) ^ p.2.2))
  match (pyStrip s).data with
  | '-' :: rest => (core rest).map (fun q => -q)
  | '+' :: rest => core rest
  | cs => core cs

/-- Parse-or-zero coercion: pd.to_numeric(col, errors='coerce').fillna(0). -/
def coerceOrZero (o : Option String) : ℚ := ((o.bind pyParseRat).getD 0)

/-- Hexadecimal digit character, lower case, as produced by Python hex(). -/
def hexDigitChar (n : Nat) : Char :=
  if n < 10 then Char.ofNat ('0'.toNat + n) else Char.ofNat ('a'.toNat + (n - 10))

/-- Hex digits of a natural number, least significant first; the fuel
argument keeps the recursion structural, and the initial fuel n is enough
because the value shrinks by a factor of 16 each step. -/
def hexRevF : Nat → Nat → List Char
  | 0, _ => []
  | _, 0 => []
  | fuel + 1, n + 1 => hexDigitChar ((n + 1) % 16) :: hexRevF fuel ((n + 1) / 16)

/-- Lower-case hexadecimal rendering of a natural number, no radix mark. -/
def natToHexLower (n : Nat) : String :=
  if n = 0 then "0" else String.mk (hexRevF n n).reverse

/-- Model of Python hex(i)[2:]: for negative i only the leading "-0" is cut,
leaving an "x" in place, exactly as the slice does in the sources. -/
def pyHexLower (i : ℤ) : String :=
  if i < 0 then "x" ++ natToHexLower i.natAbs else natToHexLower i.toNat

/-- ASCII upper-casing of one character. -/
def asciiUpper (c : Char) : Char :=
  if 'a' ≤ c ∧ c ≤ 'z' then Char.ofNat (c.toNat - 32) else c

/-- ASCII upper-casing of a string, as str.upper() on hex output. -/
def asciiUpperStr (s : String) : String := String.mk (s.data.map asciiUpper)

/-- Numeric 2-digit zero padding: the f-string directive 02d. -/
def pad2Int (n : ℤ) : String :=
  let s := toString n
  if s.length < 2 then String.mk (List.replicate (2 - s.length) '0') ++ s else s

/-- String left-padding to width 2 with the zero character (f-string 0>2). -/
def padLeftZero2 (s : String) : String :=
  if s.length < 2 then String.mk (List.replicate (2 - s.length) '0') ++ s else s

/-- Remove every hyphen from a string: str.replace applied to a dash. -/
def stripDashes (s : String) : String := String.mk (s.data.filter (fun c => c ≠ '-'))

/-- Python truthiness of an optional string: present and non-empty. -/
def pyTruthy (o : Option String) : Bool :=
  match o with
  | some s => !s.isEmpty
  | none => false

/-! ### Identifier (CUI) generators -/

/-- SireVentasProcessor._generate_cui: None on any missing input, else
lower-case hex of int(ruc), the 2-digit int(float(tipo_doc)), and the
hyphen-stripped concatenation of series and correlative; parse failures of
the numeric components yield None. -/
def sireVentasGenerateCui (ruc tipoDoc serie numero : Option String) : Option String :=
  match ruc, tipoDoc, serie, numero with
  | some ruc, some tipoDoc, some serie, some numero =>
    let tipoDocStr := pyStrip tipoDoc
    let fullNumero := pyStrip serie ++ "-" ++ pyStrip numero
    match pyParseInt ruc, pyParseFloatTrunc tipoDocStr with
    | some r, some t => some (pyHexLower r ++ pad2Int t ++ stripDashes fullNumero)
    | _, _ => none
  | _, _, _, _ => none

/-- SireComprasProcessor._generate_cui: the tax-id component is the company
RUC when the stripped document-type code is the literal 53 and the
counterparty identity number otherwise; None when the type, series,
correlative or the selected tax-id component is missing or unparsable. -/
def sireComprasGenerateCui
    (tipoComprobante rucEmpresa rucProveedor serie numero : Option String) :
    Option String :=
  match tipoComprobante, serie, numero with
  | some tipo, some serie, some numero =>
    let tipoStr := pyStrip tipo
    let rucHex : Option String :=
      if tipoStr = "53" then
        match rucEmpresa with
        | none => none
        | some re => (pyParseInt re).map pyHexLower
      else
        match rucProveedor with
        | none => none
        | some rp => (pyParseInt rp).map pyHexLower
    match rucHex, pyParseFloatTrunc tipoStr with
    | some rh, some t =>
      some (rh ++ pad2Int t ++ stripDashes (pyStrip serie ++ "-" ++ pyStrip numero))
    | _, _ => none
  | _, _, _ => none

/-- FacturaProcessor.process_file lines 125-142: CUI from the emitter RUC in
UPPER-case hex, the document type left-padded as a string to 2 characters,
and the invoice number with hyphens removed; the guard uses Python
truthiness, so empty strings also yield None. -/
def facturaGenerateCui (rucEmisor tipoDoc numeroFactura : Option String) : Option String :=
  if pyTruthy rucEmisor && pyTruthy tipoDoc && pyTruthy numeroFactura then
    match rucEmisor, tipoDoc, numeroFactura with
    | some ruc, some tipo, some numero =>
      match pyParseInt ruc with
      | some r => some (asciiUpperStr (pyHexLower r) ++ padLeftZero2 tipo ++ stripDashes numero)
      | none => none
    | _, _, _ => none
  else none

/-- Identifier format as the specification words it: lower-case hex tax ID
with no radix prefix, 2-digit zero-padded document-type code, then the
series and correlative concatenated with internal hyphens stripped. -/
def specCuiFormat (taxId docTypeCode : ℤ) (series correlative : String) : String :=
  pyHexLower taxId ++ pad2Int docTypeCode ++ (stripDashes series ++ stripDashes correlative)

/-! ### Filename classifier (main.DOCUMENT_RULES and identify_document_type)

The classifier regexes are anchored at both ends and compiled with
IGNORECASE, so a rule matches exactly when the ASCII-lowered filename is in
the pattern language.  The patterns use only literals, bounded digit runs,
an unbounded digit run, alphanumeric and alphabetic classes, single
optional characters and a final extension alternation; the token language
below covers exactly these constructs and the matcher decides language
membership over the lowered filename. -/

/-- ASCII lower-casing of one character, the effect of IGNORECASE matching
restricted to the ASCII patterns of DOCUMENT_RULES. -/
def asciiLower (c : Char) : Char :=
  if 'A' ≤ c ∧ c ≤ 'Z' then Char.ofNat (c.toNat + 32) else c

/-- Lowered character list of a filename. -/
def lowerStr (s : String) : List Char := s.data.map asciiLower

/-- Lower-case ASCII letter test. -/
def isLowerAlpha (c : Char) : Bool := 'a' ≤ c && c ≤ 'z'

/-- The character class of A-Z0-9 under IGNORECASE, seen on lowered input. -/
def isAlnumLower (c : Char) : Bool := isLowerAlpha c || isAsciiDigit c

/-- Pattern tokens of the DOCUMENT_RULES regexes (literals stored lowered). -/
inductive Tok where
  | lit : List Char → Tok
  | digits : Nat → Nat → Tok
  | digitsPlus : Tok
  | cls : (Char → Bool) → Nat → Tok
  | opt : Char → Tok
  | alts : List (List Char) → Tok

/-- Remove an exact literal from the front of the input, or fail. -/
def dropLit : List Char → List Char → Option (List Char)
  | [], cs => some cs
  | _ :: _, [] => none
  | p :: ps, c :: cs => if p = c then dropLit ps cs else none

/-- Anchored matcher for a token sequence, fuelled so that it is structural
and evaluates by kernel reduction; membership in the pattern language is
what an anchored Python regex match decides. -/
def matchToksF : Nat → List Tok → List Char → Bool
  | 0, _, _ => false
  | _ + 1, [], cs => cs.isEmpty
  | fuel + 1, Tok.lit l :: ts, cs =>
    match dropLit l cs with
    | some rest => matchToksF fuel ts rest
    | none => false
  | fuel + 1, Tok.digits lo hi :: ts, cs =>
    (List.range (hi + 1)).any fun k =>
      decide (lo ≤ k) && (cs.take k).length == k && (cs.take k).all isAsciiDigit
        && matchToksF fuel ts (cs.drop k)
  | fuel + 1, Tok.digitsPlus :: ts, cs =>
    (List.range (cs.length + 1)).any fun k =>
      decide (1 ≤ k) && (cs.take k).all isAsciiDigit && matchToksF fuel ts (cs.drop k)
  | fuel + 1, Tok.cls p n :: ts, cs =>
    (cs.take n).length == n && (cs.take n).all p && matchToksF fuel ts (cs.drop n)
  | fuel + 1, Tok.opt c :: ts, cs =>
    matchToksF fuel ts cs
      || (match cs with
          | c' :: rest => c = c' && matchToksF fuel ts rest
          | [] => false)
  | fuel + 1, Tok.alts ls :: ts, cs =>
    ls.any fun l =>
      match dropLit l cs with
      | some rest => matchToksF fuel ts rest
      | none => false

/-- Anchored match of a full token sequence against a character list. -/
def matchToks (toks : List Tok) (cs : List Char) : Bool :=
  matchToksF (toks.length + 1) toks cs

/-- A classification rule matches a filename when the anchored pattern
accepts the whole lowered name. -/
def ruleMatches (toks : List Tok) (filename : String) : Bool :=
  matchToks toks (lowerStr filename)

/-- main.DOCUMENT_RULES in source insertion order (a Python dict preserves
it); each regex is rendered into the token language with its literals
lowered, mirroring IGNORECASE. -/
def DOCUMENT_RULES : List (String × List Tok) := [
  ("declaraciones_pagos",
    [Tok.lit "detalledeclaraciones_".data, Tok.digits 11 11, Tok.lit "_".data,
     Tok.digits 14 14, Tok.lit ".xlsx".data]),
  ("guia_remision_xml",
    [Tok.digits 11 11, Tok.lit "-09-".data, Tok.cls isAlnumLower 4, Tok.lit "-".data,
     Tok.digits 1 8, Tok.lit ".xml".data]),
  ("sire_compras",
    [Tok.digits 11 11, Tok.lit "-".data, Tok.digits 8 8, Tok.lit "-".data,
     Tok.digits 4 6, Tok.lit "-propuesta.".data, Tok.alts ["zip".data, "txt".data]]),
  ("sire_ventas",
    [Tok.lit "le".data, Tok.digits 11 11, Tok.digits 6 6, Tok.opt '1',
     Tok.digitsPlus, Tok.lit "exp2.".data, Tok.alts ["zip".data, "txt".data]]),
  ("factura_xml",
    [Tok.lit "factura".data, Tok.cls isAlnumLower 4, Tok.opt '-', Tok.digits 1 8,
     Tok.digits 11 11, Tok.lit ".".data, Tok.alts ["zip".data, "xml".data]]),
  ("boleta_xml",
    [Tok.lit "boleta".data, Tok.cls isAlnumLower 4, Tok.lit "-".data, Tok.digits 1 8,
     Tok.digits 11 11, Tok.lit ".".data, Tok.alts ["zip".data, "xml".data]]),
  ("credito_xml",
    [Tok.lit "nota_credito".data, Tok.cls isAlnumLower 4, Tok.opt '_', Tok.digits 1 8,
     Tok.digits 11 11, Tok.lit ".".data, Tok.alts ["zip".data, "xml".data]]),
  ("debito_xml",
    [Tok.lit "nota_debito".data, Tok.cls isAlnumLower 4, Tok.opt '_', Tok.digits 1 8,
     Tok.digits 11 11, Tok.lit ".".data, Tok.alts ["zip".data, "xml".data]]),
  ("recibo_xml",
    [Tok.lit "rhe".data, Tok.digits 11 11, Tok.digits 1 8, Tok.lit ".xml".data]),
  ("reporte_planilla_zip",
    [Tok.digits 11 11, Tok.lit "_".data, Tok.cls isLowerAlpha 3, Tok.lit "_".data,
     Tok.digits 8 8, Tok.lit ".zip".data])]

/-- main.identify_document_type: first rule whose pattern matches the
filename wins; the fallback tag is the literal desconocido. -/
def identify_document_type (filename : String) : String :=
  match DOCUMENT_RULES.find? (fun rule => ruleMatches rule.2 filename) with
  | some rule => rule.1
  | none => "desconocido"

/-! ### SIRE ventas fiscal rule engine
(SireVentasProcessor._aplicar_filtro_complejo)

The engine works on numeric columns that were coerced with parse-or-zero
semantics; a row is embedded as its tuple of partition variables. np.select
evaluates the condition list in order and the first true condition selects
the corresponding result, with a shared default; the five np.select calls
in the source use the same condition list, so the whole derivation is a
single ordered cascade producing the five derived fields at once. -/

/-- Numeric partition variables of one SIRE ventas ledger row. -/
structure VentasRow where
  tipoCP : ℚ
  valorExport : ℚ
  biGravada : ℚ
  dsctoBI : ℚ
  igvIpm : ℚ
  dsctoIgv : ℚ
  mtoExonerado : ℚ
  mtoInafecto : ℚ
  biGravIvap : ℚ
  ivap : ℚ
  otrosTributos : ℚ
  deriving DecidableEq

/-- Shared subterm suma_exo_inaf of the ventas cascade. -/
def sumaExoInaf (r : VentasRow) : ℚ := r.mtoExonerado + r.mtoInafecto

/-- Ventas cascade predicate 1. -/
def vc1 (r : VentasRow) : Prop := r.tipoCP = 7 ∧ r.valorExport < 0

/-- Ventas cascade predicate 2. -/
def vc2 (r : VentasRow) : Prop := r.tipoCP = 7 ∧ r.valorExport = 0

/-- Ventas cascade predicate 3. -/
def vc3 (r : VentasRow) : Prop :=
  r.tipoCP ≠ 7 ∧ r.valorExport > 0 ∧ r.biGravada = 0 ∧ r.dsctoBI = 0 ∧ r.igvIpm = 0 ∧
    r.dsctoIgv = 0 ∧ r.mtoExonerado = 0 ∧ r.mtoInafecto = 0 ∧ r.biGravIvap = 0 ∧ r.ivap = 0

/-- Ventas cascade predicate 4. -/
def vc4 (r : VentasRow) : Prop :=
  r.tipoCP ≠ 7 ∧ r.valorExport = 0 ∧ r.biGravada > 0 ∧ r.igvIpm > 0 ∧
    sumaExoInaf r > 0 ∧ r.biGravIvap = 0 ∧ r.ivap = 0

/-- Ventas cascade predicate 5. -/
def vc5 (r : VentasRow) : Prop :=
  r.tipoCP ≠ 7 ∧ r.valorExport = 0 ∧ r.biGravada > 0 ∧ r.igvIpm > 0 ∧
    sumaExoInaf r = 0 ∧ r.biGravIvap = 0 ∧ r.ivap = 0

/-- Ventas cascade predicate 6. -/
def vc6 (r : VentasRow) : Prop :=
  r.tipoCP ≠ 7 ∧ r.valorExport = 0 ∧ r.biGravada = 0 ∧ r.dsctoBI = 0 ∧ r.igvIpm = 0 ∧
    r.dsctoIgv = 0 ∧ sumaExoInaf r > 0 ∧ r.biGravIvap = 0 ∧ r.ivap = 0

/-- Ventas cascade predicate 7. -/
def vc7 (r : VentasRow) : Prop :=
  r.tipoCP ≠ 7 ∧ r.valorExport = 0 ∧ r.biGravada = 0 ∧ r.dsctoBI = 0 ∧ r.igvIpm = 0 ∧
    r.dsctoIgv = 0 ∧ sumaExoInaf r = 0 ∧ r.biGravIvap > 0 ∧ r.ivap > 0

instance (r : VentasRow) : Decidable (vc1 r) :=
  inferInstanceAs (Decidable (_ ∧ _))
instance (r : VentasRow) : Decidable (vc2 r) :=
  inferInstanceAs (Decidable (_ ∧ _))
instance (r : VentasRow) : Decidable (vc3 r) :=
  inferInstanceAs (Decidable (_ ∧ _))
instance (r : VentasRow) : Decidable (vc4 r) :=
  inferInstanceAs (Decidable (_ ∧ _))
instance (r : VentasRow) : Decidable (vc5 r) :=
  inferInstanceAs (Decidable (_ ∧ _))
instance (r : VentasRow) : Decidable (vc6 r) :=
  inferInstanceAs (Decidable (_ ∧ _))
instance (r : VentasRow) : Decidable (vc7 r) :=
  inferInstanceAs (Decidable (_ ∧ _))

/-- The five derived fiscal fields of one ledger row. -/
structure FiscalOut where
  tipoOperacion : ℤ
  destino : ℤ
  valor : ℚ
  igv : ℚ
  otrosCargos : ℚ
  deriving DecidableEq

/-- The ventas cascade predicates, indexed in evaluation order. -/
def ventasCond (r : VentasRow) : Fin 7 → Prop
  | 0 => vc1 r
  | 1 => vc2 r
  | 2 => vc3 r
  | 3 => vc4 r
  | 4 => vc5 r
  | 5 => vc6 r
  | 6 => vc7 r

/-- Result tuple listed against each ventas predicate, from the five
resultados lists of the source. -/
def ventasResult (r : VentasRow) : Fin 7 → FiscalOut
  | 0 => ⟨1, 1, r.biGravada + r.dsctoBI + r.biGravIvap, r.igvIpm + r.dsctoIgv + r.ivap,
          r.otrosTributos⟩
  | 1 => ⟨1, 1, r.valorExport, 0, r.otrosTributos⟩
  | 2 => ⟨17, 2, r.valorExport, 0, r.otrosTributos⟩
  | 3 => ⟨1, 3, r.biGravada, r.igvIpm, r.otrosTributos + sumaExoInaf r⟩
  | 4 => ⟨1, 1, r.biGravada, r.igvIpm, r.otrosTributos⟩
  | 5 => ⟨1, 2, sumaExoInaf r, 0, r.otrosTributos⟩
  | 6 => ⟨1, 4, r.biGravIvap, r.ivap, r.otrosTributos + sumaExoInaf r⟩

/-- Default result when no ventas predicate matches: needs-review code 99,
zero amounts, and the declared other-charges column kept as is. -/
def ventasDefault (r : VentasRow) : FiscalOut := ⟨99, 99, 0, 0, r.otrosTributos⟩

/-- The ventas rule engine: np.select over the ordered predicate cascade. -/
def ventasFiltro (r : VentasRow) : FiscalOut :=
  if vc1 r then ventasResult r 0
  else if vc2 r then ventasResult r 1
  else if vc3 r then ventasResult r 2
  else if vc4 r then ventasResult r 3
  else if vc5 r then ventasResult r 4
  else if vc6 r then ventasResult r 5
  else if vc7 r then ventasResult r 6
  else ventasDefault r

/-! ### SIRE compras fiscal rule engine
(SireComprasProcessor._aplicar_filtro_complejo)

The engine's columnas_valor list names a column igv_dng that the rename
table never produces (the source column IGV / IPM DNG is renamed to
igv_gravado_dng), so the missing-column branch always sets igv_dng to 0;
the embedding fixes that lexical constant inside the result tuples. -/

/-- Numeric partition variables of one SIRE compras ledger row after the
rename stage. -/
structure ComprasRow where
  biGravadoDg : ℚ
  igvGravadoDg : ℚ
  biGravadoDgng : ℚ
  igvGravadoDgng : ℚ
  biGravadoDng : ℚ
  valorAdqNg : ℚ
  otrosCargos : ℚ
  deriving DecidableEq

/-- Compras cascade predicate 1 (cond_destino_5 in the source, listed
first). -/
def cc1 (r : ComprasRow) : Prop :=
  (r.biGravadoDg > 0 ∨ r.biGravadoDgng > 0 ∨ r.biGravadoDng > 0) ∧ r.valorAdqNg > 0

/-- Compras cascade predicate 2 (cond_destino_1). -/
def cc2 (r : ComprasRow) : Prop := r.biGravadoDg > 0

/-- Compras cascade predicate 3 (cond_destino_2). -/
def cc3 (r : ComprasRow) : Prop := r.biGravadoDgng > 0

/-- Compras cascade predicate 4 (cond_destino_3). -/
def cc4 (r : ComprasRow) : Prop := r.biGravadoDng > 0

/-- Compras cascade predicate 5 (cond_destino_4). -/
def cc5 (r : ComprasRow) : Prop := r.valorAdqNg > 0

instance (r : ComprasRow) : Decidable (cc1 r) :=
  inferInstanceAs (Decidable (_ ∧ _))
instance (r : ComprasRow) : Decidable (cc2 r) :=
  inferInstanceAs (Decidable (_ < _))
instance (r : ComprasRow) : Decidable (cc3 r) :=
  inferInstanceAs (Decidable (_ < _))
instance (r : ComprasRow) : Decidable (cc4 r) :=
  inferInstanceAs (Decidable (_ < _))
instance (r : ComprasRow) : Decidable (cc5 r) :=
  inferInstanceAs (Decidable (_ < _))

/-- The compras cascade predicates, indexed in evaluation order. -/
def comprasCond (r : ComprasRow) : Fin 5 → Prop
  | 0 => cc1 r
  | 1 => cc2 r
  | 2 => cc3 r
  | 3 => cc4 r
  | 4 => cc5 r

/-- Result tuple per compras predicate; tipo_operacion is the constant 2
and the igv_dng contribution is the always-zero missing column. -/
def comprasResult (r : ComprasRow) : Fin 5 → FiscalOut
  | 0 => ⟨2, 5, r.biGravadoDg + r.biGravadoDgng + r.biGravadoDng,
          r.igvGravadoDg + r.igvGravadoDgng + 0, r.otrosCargos + r.valorAdqNg⟩
  | 1 => ⟨2, 1, r.biGravadoDg, r.igvGravadoDg, r.otrosCargos⟩
  | 2 => ⟨2, 2, r.biGravadoDgng, r.igvGravadoDgng, r.otrosCargos⟩
  | 3 => ⟨2, 3, r.biGravadoDng, 0, r.otrosCargos⟩
  | 4 => ⟨2, 4, r.valorAdqNg, 0, r.otrosCargos⟩

/-- Default compras result: every np.select default is 0 here, and
tipo_operacion stays 2. -/
def comprasDefault : FiscalOut := ⟨2, 0, 0, 0, 0⟩

/-- The compras rule engine: np.select over the ordered predicate cascade. -/
def comprasFiltro (r : ComprasRow) : FiscalOut :=
  if cc1 r then comprasResult r 0
  else if cc2 r then comprasResult r 1
  else if cc3 r then comprasResult r 2
  else if cc4 r then comprasResult r 3
  else if cc5 r then comprasResult r 4
  else comprasDefault

/-! ### SIRE ventas transformation (SireVentasProcessor._transform_data)

A raw row is the string-valued record read with dtype=str; a missing cell
(pandas NaN) is none.  The embedding covers the columns the transformation
reads or writes and that some claim inspects; date and period columns,
which are parsed but never branch, are omitted.  Every column operation of
the source is row-independent, so the pipeline is a per-row map after the
initial CAR SUNAT length filter. -/

/-- One raw SIRE ventas record, string cells with NaN as none. -/
structure RawVentasRow where
  ruc : Option String
  carSunat : Option String
  tipoCP : Option String
  serie : Option String
  numero : Option String
  tipoDocIdent : Option String
  nroDocIdent : Option String
  razonSocial : Option String
  biGravada : Option String
  dsctoBI : Option String
  igvIpm : Option String
  dsctoIgv : Option String
  mtoExonerado : Option String
  mtoInafecto : Option String
  biGravIvap : Option String
  ivap : Option String
  isc : Option String
  icbper : Option String
  otrosTributos : Option String
  valorExport : Option String
  deriving DecidableEq

/-- The row-retention test of the transformation: the CAR SUNAT cell is a
string of exactly 27 characters (a NaN cell has no length and is dropped). -/
def keepCar27 (r : RawVentasRow) : Bool :=
  match r.carSunat with
  | some s => s.length == 27
  | none => false

/-- Sentinel translation: a dash document-identity type becomes the zero
code, and for the zero code a dash identity number is replaced by the
counterparty name column. -/
def sentinelFix (r : RawVentasRow) : RawVentasRow :=
  let tipo1 := if r.tipoDocIdent = some "-" then some "0" else r.tipoDocIdent
  let nro1 :=
    if tipo1 = some "0" ∧ r.nroDocIdent = some "-" then r.razonSocial else r.nroDocIdent
  { r with tipoDocIdent := tipo1, nroDocIdent := nro1 }

/-- pandas astype(str) rendering of an optional cell: NaN prints as nan. -/
def pyStrOfCell (o : Option String) : String := o.getD "nan"

/-- Round-half-to-even on rationals, the idealisation of the float rounding
pandas applies. -/
def roundHalfEven (q : ℚ) : ℤ :=
  if q - ⌊q⌋ < 1 / 2 then ⌊q⌋
  else if q - ⌊q⌋ > 1 / 2 then ⌊q⌋ + 1
  else if ⌊q⌋ % 2 = 0 then ⌊q⌋ else ⌊q⌋ + 1

/-- Rounding to two decimal places as in _convert_data_types. -/
def round2 (q : ℚ) : ℚ := (roundHalfEven (q * 100) : ℚ) / 100

/-- Numeric view of a raw row as fed to the rule engine: the parse-or-zero
coercions of columnas_monto plus the two columns first coerced inside
_aplicar_filtro_complejo. -/
def coerceVentasRow (r : RawVentasRow) : VentasRow :=
  { tipoCP := coerceOrZero r.tipoCP
    valorExport := coerceOrZero r.valorExport
    biGravada := coerceOrZero r.biGravada
    dsctoBI := coerceOrZero r.dsctoBI
    igvIpm := coerceOrZero r.igvIpm
    dsctoIgv := coerceOrZero r.dsctoIgv
    mtoExonerado := coerceOrZero r.mtoExonerado
    mtoInafecto := coerceOrZero r.mtoInafecto
    biGravIvap := coerceOrZero r.biGravIvap
    ivap := coerceOrZero r.ivap
    otrosTributos := coerceOrZero r.otrosTributos }

/-- The annotation of the CAR SUNAT cell for needs-review rows. -/
def annotateCar (car : Option String) (destino : ℤ) : Option String :=
  if destino = 99 then some (pyStrOfCell car ++ " | Revisar dinamica de destino") else car

/-- One transformed SIRE ventas output row, restricted to the derived
columns the claims inspect (monetary outputs carry the two-decimal
rounding of _convert_data_types). -/
structure VentasFinalRow where
  cui : Option String
  observaciones : String
  tipoOperacion : ℤ
  destino : ℤ
  valor : ℚ
  igv : ℚ
  otrosCargos : ℚ
  deriving DecidableEq

/-- The per-row body of _transform_data after the CAR SUNAT filter:
sentinel fix, coercions, identifier generation, rule engine, annotation,
rename with the SIRE observation tag, and final numeric conversion. -/
def transformKept (r0 : RawVentasRow) : VentasFinalRow :=
  let r := sentinelFix r0
  let cui := sireVentasGenerateCui r.ruc r.tipoCP r.serie r.numero
  let fo := ventasFiltro (coerceVentasRow r)
  let car := annotateCar r.carSunat fo.destino
  { cui := cui
    observaciones := "SIRE:" ++ pyStrOfCell car
    tipoOperacion := fo.tipoOperacion
    destino := fo.destino
    valor := round2 fo.valor
    igv := round2 fo.igv
    otrosCargos := round2 fo.otrosCargos }

/-- SireVentasProcessor._transform_data: retain only rows whose CAR SUNAT
cell is exactly 27 characters, then run the rest of the pipeline on the
retained rows. -/
def sireVentasTransformData (rows : List RawVentasRow) : List VentasFinalRow :=
  (rows.filter keepCar27).map transformKept

/-- SireVentasProcessor.process_file over an extraction outcome: extraction
failure is none (counted as an error by the batch loop), an empty extract
is an empty success, and otherwise the transformation runs; no error or
counter reflects rows dropped inside the transformation. -/
def sireVentasProcessFile (extracted : Option (List RawVentasRow)) :
    Option (List VentasFinalRow) :=
  match extracted with
  | none => none
  | some [] => some []
  | some rows => some (sireVentasTransformData rows)

/-! ### Batch loop and statistics (main.process_directory)

A batch file is its filename together with the outcome of its processor
run: none stands for a processor returning None or raising (both branches
of the source count an error), some tables is the dictionary of produced
entity tables, keyed by entity name with the table abstracted to its row
count.  Classification reuses the embedded identify_document_type. -/

/-- The processor registry keys of main.process_directory. -/
def PROCESSOR_KEYS : List String :=
  ["factura_xml", "credito_xml", "debito_xml", "guia_remision_xml", "boleta_xml",
   "sire_compras", "sire_ventas", "reporte_planilla_zip"]

/-- The batch counters of main.process_directory. -/
structure BatchStats where
  totalFiles : Nat
  processedFiles : Nat
  errors : Nat
  unknownFiles : Nat
  byType : List (String × Nat)
  deriving DecidableEq

/-- Increment the per-type histogram entry of a document type, creating it
at the end on first sight (dict insertion order). -/
def bumpType : List (String × Nat) → String → List (String × Nat)
  | [], k => [(k, 1)]
  | (k', v) :: rest, k =>
    if k' = k then (k', v + 1) :: rest else (k', v) :: bumpType rest k

/-- The per-entity accumulation of produced tables across the batch. -/
abbrev BatchResults := List (String × List Nat)

/-- Append one produced table under its entity key. -/
def appendDf : BatchResults → String → Nat → BatchResults
  | [], k, df => [(k, [df])]
  | (k', dfs) :: rest, k, df =>
    if k' = k then (k', dfs ++ [df]) :: rest else (k', dfs) :: appendDf rest k df

/-- One discovered file: its name and its processing outcome. -/
structure BatchFile where
  name : String
  outcome : Option (List (String × Nat))

/-- The body of the per-file loop of main.process_directory: classify,
bump the histogram, then either process (success appends every produced
table and counts one processed file; a None result or an exception counts
one error; a falsy empty dictionary also counts an error) or count an
unknown file when no processor is registered for the type. -/
def processStep (acc : BatchResults × BatchStats) (f : BatchFile) :
    BatchResults × BatchStats :=
  let results := acc.1
  let stats := acc.2
  let docType := identify_document_type f.name
  let stats := { stats with byType := bumpType stats.byType docType }
  if PROCESSOR_KEYS.contains docType then
    match f.outcome with
    | some tables =>
      if tables.isEmpty then (results, { stats with errors := stats.errors + 1 })
      else (tables.foldl (fun res kv => appendDf res kv.1 kv.2) results,
            { stats with processedFiles := stats.processedFiles + 1 })
    | none => (results, { stats with errors := stats.errors + 1 })
  else (results, { stats with unknownFiles := stats.unknownFiles + 1 })

/-- main.process_directory over the discovered file list: total is the
file count, the loop folds the per-file step over discovery order. -/
def process_directory (files : List BatchFile) : BatchResults × BatchStats :=
  files.foldl processStep ([], ⟨files.length, 0, 0, 0, []⟩)

/-- Row count of the aggregated table of one entity key, the length of the
concatenation save_results_to_csv builds. -/
def aggregatedRows (res : BatchResults) (key : String) : Nat :=
  match res.find? (fun kv => kv.1 = key) with
  | some kv => kv.2.sum
  | none => 0

/-- Modelled from the spec: BaseXMLProcessor.validate_xml is imported by
FacturaProcessor but its defining module is not among the sources; the spec
confines validation to well-formedness (a top-level parse failure), so the
extra validation step is the constant true and malformedness is carried by
the parse outcome below. -/
def validate_xml : Bool := true

/-- The parsed content of a well-formed invoice, abstracted to what decides
row counts: a header always yields one row, lines and payment terms yield
one row per element found. -/
structure FacturaDoc where
  lines : Nat
  paymentTerms : Nat

/-- FacturaProcessor.process_file over a parse outcome: a validation
failure returns the dictionary of empty tables, a parse failure (malformed
XML) returns none, and success returns one header row plus the per-element
tables. -/
def facturaProcessFile (parsed : Option FacturaDoc) : Option (List (String × Nat)) :=
  if validate_xml = false then
    some [("header", 0), ("lines", 0), ("payment_terms", 0)]
  else
    match parsed with
    | none => none
    | some d => some [("header", 1), ("lines", d.lines), ("payment_terms", d.paymentTerms)]

/-! ### Relational sink (main.save_results_to_db and DatabaseManager)

The target table is abstracted to its identifier column: one optional
string per stored row.  check_records_exist mirrors the SQL membership
query (a NULL identifier never matches an IN list), insert_dataframe
appends the given rows. -/

/-- A relational target table, abstracted to its cui column. -/
structure DbTable where
  cuiCol : List (Option String)
  deriving DecidableEq

/-- DatabaseManager.check_records_exist: the stored identifiers that occur
in the key list. -/
def check_records_exist (t : DbTable) (keys : List String) : List String :=
  (t.cuiCol.filterMap id).filter (fun c => keys.contains c)

/-- DatabaseManager.insert_dataframe: append the rows to the table. -/
def insert_dataframe (t : DbTable) (rows : List (Option String)) : DbTable :=
  ⟨t.cuiCol ++ rows⟩

/-- The idempotent-insert branch of main.save_results_to_db for a cabeceras
table keyed by cui: drop the NaN identifiers from the key list, query the
existing ones, and insert only the rows whose identifier is not among the
existing keys; a row with a NaN identifier never tests as existing. -/
def saveCabecerasRun (t : DbTable) (fullDf : List (Option String)) : DbTable :=
  let cuiKeys := fullDf.filterMap id
  let existing := check_records_exist t cuiKeys
  let newRecords := fullDf.filter (fun c =>
    match c with
    | some s => !existing.contains s
    | none => true)
  if newRecords.isEmpty then t else insert_dataframe t newRecords

/-- The per-entity dispatch of main.save_results_to_db: an empty
concatenated table is skipped, the idempotent branch runs only for a
cabeceras table whose column map contains cui, and every other entity is
appended unconditionally. -/
def saveResultsToDbEntity (table : String) (columnValues : List String)
    (t : DbTable) (fullDf : List (Option String)) : DbTable :=
  if fullDf.isEmpty then t
  else if table = "cabeceras" ∧ "cui" ∈ columnValues then saveCabecerasRun t fullDf
  else insert_dataframe t fullDf

/-! ### Shared lemmas -/

/-- String append is concatenation of the underlying character lists. -/
theorem string_mk_append (a b : List Char) :
    String.mk a ++ String.mk b = String.mk (a ++ b) := rfl

/-- Removing hyphens distributes over the hyphen-joined concatenation, so
the generator's series-dash-correlative join equals the spec's
concatenation of the two hyphen-stripped components. -/
theorem stripDashes_concat (a b : String) :
    stripDashes (a ++ "-" ++ b) = stripDashes a ++ stripDashes b := by
  simp only [stripDashes, string_mk_append]
  apply congrArg String.mk
  simp only [String.data_append]
  simp [List.filter_append]

/-- find? returns the entry at the first index whose test holds. -/
theorem find?_first_of_getD {α : Type} (d : α) (p : α → Bool) (l : List α) :
    ∀ i : Nat, i < l.length → p (l.getD i d) = true →
    (∀ j, j < i → p (l.getD j d) = false) →
    l.find? p = some (l.getD i d) := by
  induction l with
  | nil => intro i h; simp at h
  | cons a l ih =>
    intro i hi hp hmin
    cases i with
    | zero =>
      simp only [List.getD_cons_zero] at hp ⊢
      simp [List.find?_cons, hp]
    | succ i =>
      have ha : p a = false := by
        simpa only [List.getD_cons_zero] using hmin 0 (Nat.succ_pos i)
      simp only [List.getD_cons_succ] at hp ⊢
      rw [List.find?_cons, ha]
      exact ih i (by simpa using hi) hp
        (fun j hj => by simpa only [List.getD_cons_succ] using hmin (j + 1) (by omega))

/-! ### Claim C4 -/

/-- C4: both SIRE identifier generators return None whenever a required
component is absent and whenever the tax ID or the document-type code
fails integer parsing; for the compras generator the tax ID is the
selected component of its type-dependent arm (the company RUC under type
code 53, the counterparty number otherwise), and its absence or parse
failure also yields None; being total Lean functions into Option, the
generators never raise past their boundary in those cases. -/
theorem c4_generator_null_on_missing_or_nonnumeric :
    (∀ ruc tipoDoc serie numero : Option String,
      ruc = none ∨ tipoDoc = none ∨ serie = none ∨ numero = none →
      sireVentasGenerateCui ruc tipoDoc serie numero = none)
  ∧ (∀ (ruc : String) (tipoDoc serie numero : Option String),
      pyParseInt ruc = none →
      sireVentasGenerateCui (some ruc) tipoDoc serie numero = none)
  ∧ (∀ (ruc : Option String) (tipoDoc : String) (serie numero : Option String),
      pyParseFloatTrunc (pyStrip tipoDoc) = none →
      sireVentasGenerateCui ruc (some tipoDoc) serie numero = none)
  ∧ (∀ tipo rucE rucP serie numero : Option String,
      tipo = none ∨ serie = none ∨ numero = none →
      sireComprasGenerateCui tipo rucE rucP serie numero = none)
  ∧ (∀ (tipo : String) (rucE rucP serie numero : Option String),
      pyParseFloatTrunc (pyStrip tipo) = none →
      sireComprasGenerateCui (some tipo) rucE rucP serie numero = none)
  ∧ (∀ (tipo : String) (rucP serie numero : Option String),
      pyStrip tipo = "53" →
      sireComprasGenerateCui (some tipo) none rucP serie numero = none)
  ∧ (∀ (tipo rucE : String) (rucP serie numero : Option String),
      pyStrip tipo = "53" → pyParseInt rucE = none →
      sireComprasGenerateCui (some tipo) (some rucE) rucP serie numero = none)
  ∧ (∀ (tipo : String) (rucE serie numero : Option String),
      pyStrip tipo ≠ "53" →
      sireComprasGenerateCui (some tipo) rucE none serie numero = none)
  ∧ (∀ (tipo rucP : String) (rucE serie numero : Option String),
      pyStrip tipo ≠ "53" → pyParseInt rucP = none →
      sireComprasGenerateCui (some tipo) rucE (some rucP) serie numero = none) := by
  refine ⟨?_, ?_, ?_, ?_, ?_, ?_, ?_, ?_, ?_⟩
  · intro ruc tipoDoc serie numero h
    cases ruc <;> cases tipoDoc <;> cases serie <;> cases numero <;>
      first
        | rfl
        | (rcases h with h | h | h | h <;> exact Option.noConfusion h)
  · intro ruc tipoDoc serie numero h
    cases tipoDoc <;> cases serie <;> cases numero <;>
      simp [sireVentasGenerateCui, h]
  · intro ruc tipoDoc serie numero h
    cases ruc <;> cases serie <;> cases numero <;>
      simp [sireVentasGenerateCui, h]
  · intro tipo rucE rucP serie numero h
    cases tipo <;> cases serie <;> cases numero <;>
      first
        | rfl
        | (rcases h with h | h | h <;> exact Option.noConfusion h)
  · intro tipo rucE rucP serie numero h
    cases serie <;> cases numero <;>
      simp [sireComprasGenerateCui, h]
  · intro tipo rucP serie numero h
    cases serie <;> cases numero <;>
      simp [sireComprasGenerateCui, h]
  · intro tipo rucE rucP serie numero h hp
    cases serie <;> cases numero <;>
      simp [sireComprasGenerateCui, h, hp]
  · intro tipo rucE serie numero h
    cases serie <;> cases numero <;>
      simp [sireComprasGenerateCui, h]
  · intro tipo rucP rucE serie numero h hp
    cases serie <;> cases numero <;>
      simp [sireComprasGenerateCui, h, hp]

/-- C4 witness: the generators evaluated on a missing component, on the
non-numeric tax ID of the spec example, on a non-numeric type code, and
on the compras type-dependent tax-ID arm with the selected component
absent or non-numeric, all yield None. -/
theorem c4_witness :
    sireVentasGenerateCui none (some "01") (some "F001") (some "45") = none ∧
    sireVentasGenerateCui (some "ABC") (some "01") (some "F001") (some "45") = none ∧
    sireComprasGenerateCui (some "XY") (some "20123456789") (some "10456789012")
      (some "F001") (some "45") = none ∧
    sireComprasGenerateCui (some "01") (some "20123456789") (some "ABC")
      (some "F001") (some "45") = none ∧
    sireComprasGenerateCui (some "53") (some "ABC") (some "10456789012")
      (some "F001") (some "45") = none ∧
    sireComprasGenerateCui (some "01") (some "20123456789") none
      (some "F001") (some "45") = none := by
  refine ⟨?_, ?_, ?_, ?_, ?_, ?_⟩
  · exact c4_generator_null_on_missing_or_nonnumeric.1 none (some "01") (some "F001")
      (some "45") (Or.inl rfl)
  · exact c4_generator_null_on_missing_or_nonnumeric.2.1 "ABC" (some "01") (some "F001")
      (some "45") (by decide)
  · exact c4_generator_null_on_missing_or_nonnumeric.2.2.2.2.1 "XY" (some "20123456789")
      (some "10456789012") (some "F001") (some "45") (by decide)
  · exact c4_generator_null_on_missing_or_nonnumeric.2.2.2.2.2.2.2.2 "01" "ABC"
      (some "20123456789") (some "F001") (some "45") (by decide) (by decide)
  · exact c4_generator_null_on_missing_or_nonnumeric.2.2.2.2.2.2.1 "53" "ABC"
      (some "10456789012") (some "F001") (some "45") (by decide) (by decide)
  · exact c4_generator_null_on_missing_or_nonnumeric.2.2.2.2.2.2.2.1 "01"
      (some "20123456789") (some "F001") (some "45") (by decide)

/-! ### Claim C1 -/

/-- C1 counterexample: the compras cascade is not mutually exclusive; a row
with positive taxed base both for destination 1 and destination 2 and no
non-taxed acquisition value satisfies the second and the third listed
predicates at once. -/
theorem c1_counterexample :
    ¬ (∀ (r : ComprasRow) (i j : Fin 5), comprasCond r i → comprasCond r j → i = j) := by
  intro hall
  have h := hall ⟨1, 0, 1, 0, 0, 0, 0⟩ 1 2
    (show cc2 _ by norm_num [cc2]) (show cc3 _ by norm_num [cc3])
  exact absurd h (by decide)

/-- C1 amended: the ventas cascade predicates are pairwise mutually
exclusive, and in both engines the derived fields of any row equal the
result tuple listed against the first satisfied predicate in cascade
order; the compras predicates themselves can overlap. -/
theorem c1_cascade_order :
    (∀ (r : VentasRow) (i j : Fin 7), ventasCond r i → ventasCond r j → i = j)
  ∧ (∀ (r : VentasRow) (i : Fin 7), ventasCond r i →
      (∀ j : Fin 7, j < i → ¬ ventasCond r j) → ventasFiltro r = ventasResult r i)
  ∧ (∀ (r : ComprasRow) (i : Fin 5), comprasCond r i →
      (∀ j : Fin 5, j < i → ¬ comprasCond r j) → comprasFiltro r = comprasResult r i) := by
  refine ⟨?_, ?_, ?_⟩
  · intro r i j hi hj
    fin_cases i <;> fin_cases j <;> try rfl
    all_goals (
      exfalso
      simp only [ventasCond, Fin.isValue, vc1, vc2, vc3, vc4, vc5, vc6, vc7, sumaExoInaf,
        ne_eq] at hi hj)
    all_goals simp_all only [not_true, not_false_iff]
    all_goals (try linarith)
  · intro r i hi hmin
    fin_cases i <;>
      simp only [ventasCond, Fin.isValue] at hi hmin <;>
      simp only [ventasFiltro, Fin.isValue]
    · rw [if_pos hi]; rfl
    · rw [if_neg (by simpa using hmin 0 (by decide)), if_pos hi]; rfl
    · rw [if_neg (by simpa using hmin 0 (by decide)),
          if_neg (by simpa using hmin 1 (by decide)), if_pos hi]; rfl
    · rw [if_neg (by simpa using hmin 0 (by decide)),
          if_neg (by simpa using hmin 1 (by decide)),
          if_neg (by simpa using hmin 2 (by decide)), if_pos hi]; rfl
    · rw [if_neg (by simpa using hmin 0 (by decide)),
          if_neg (by simpa using hmin 1 (by decide)),
          if_neg (by simpa using hmin 2 (by decide)),
          if_neg (by simpa using hmin 3 (by decide)), if_pos hi]; rfl
    · rw [if_neg (by simpa using hmin 0 (by decide)),
          if_neg (by simpa using hmin 1 (by decide)),
          if_neg (by simpa using hmin 2 (by decide)),
          if_neg (by simpa using hmin 3 (by decide)),
          if_neg (by simpa using hmin 4 (by decide)), if_pos hi]; rfl
    · rw [if_neg (by simpa using hmin 0 (by decide)),
          if_neg (by simpa using hmin 1 (by decide)),
          if_neg (by simpa using hmin 2 (by decide)),
          if_neg (by simpa using hmin 3 (by decide)),
          if_neg (by simpa using hmin 4 (by decide)),
          if_neg (by simpa using hmin 5 (by decide)), if_pos hi]; rfl
  · intro r i hi hmin
    fin_cases i <;>
      simp only [comprasCond, Fin.isValue] at hi hmin <;>
      simp only [comprasFiltro, Fin.isValue]
    · rw [if_pos hi]; rfl
    · rw [if_neg (by simpa using hmin 0 (by decide)), if_pos hi]; rfl
    · rw [if_neg (by simpa using hmin 0 (by decide)),
          if_neg (by simpa using hmin 1 (by decide)), if_pos hi]; rfl
    · rw [if_neg (by simpa using hmin 0 (by decide)),
          if_neg (by simpa using hmin 1 (by decide)),
          if_neg (by simpa using hmin 2 (by decide)), if_pos hi]; rfl
    · rw [if_neg (by simpa using hmin 0 (by decide)),
          if_neg (by simpa using hmin 1 (by decide)),
          if_neg (by simpa using hmin 2 (by decide)),
          if_neg (by simpa using hmin 3 (by decide)), if_pos hi]; rfl

/-- C1 witness: the cascade-order theorem evaluated on one ventas row
satisfying the first predicate and one compras row whose first satisfied
predicate is the second listed. -/
theorem c1_witness :
    ventasFiltro ⟨7, -5, 0, 0, 0, 0, 0, 0, 0, 0, 3⟩
      = ventasResult ⟨7, -5, 0, 0, 0, 0, 0, 0, 0, 0, 3⟩ 0 ∧
    comprasFiltro ⟨1, 0, 1, 0, 0, 0, 2⟩ = comprasResult ⟨1, 0, 1, 0, 0, 0, 2⟩ 1 := by
  constructor
  · exact c1_cascade_order.2.1 _ 0
      (by simp only [ventasCond, Fin.isValue]; exact ⟨rfl, by norm_num⟩)
      (by intro j hj; exact absurd hj (by simp))
  · refine c1_cascade_order.2.2 _ 1 (show cc2 _ by norm_num [cc2]) ?_
    intro j hj
    fin_cases j <;> simp_all only [comprasCond, Fin.isValue]
    · norm_num [cc1]
    all_goals exact absurd hj (by decide)

/-! ### Claim C2 -/

/-- C2 counterexample: a ventas row with positive taxed base, zero exempt
and special-regime amounts but zero taxed tax satisfies no predicate, so
the engine assigns the needs-review destination 99 and zero taxable value
instead of the claimed domestic-taxed assignment. -/
theorem c2_counterexample :
    ¬ ((ventasFiltro ⟨1, 0, 100, 0, 0, 0, 0, 0, 0, 0, 0⟩).destino = 1 ∧
       (ventasFiltro ⟨1, 0, 100, 0, 0, 0, 0, 0, 0, 0, 0⟩).valor = 100) := by decide

/-- C2 amended: for a ventas row with positive taxed base and positive
taxed tax, zero exempt plus untaxed amounts, zero special-regime fields,
a non-export document type and zero declared export value, the engine
assigns destination 1, operation type 1, taxable value equal to the taxed
base, tax equal to the taxed tax, and other charges equal to the declared
other-tributes column with nothing added. -/
theorem c2_domestic_taxed_branch :
    ∀ r : VentasRow, r.tipoCP ≠ 7 → r.valorExport = 0 → 0 < r.biGravada → 0 < r.igvIpm →
      r.mtoExonerado + r.mtoInafecto = 0 → r.biGravIvap = 0 → r.ivap = 0 →
      ventasFiltro r = ⟨1, 1, r.biGravada, r.igvIpm, r.otrosTributos⟩ := by
  intro r h7 hexp hbi higv hsuma hbiivap hivap
  have h1 : ¬ vc1 r := by rintro ⟨ht, -⟩; exact h7 ht
  have h2 : ¬ vc2 r := by rintro ⟨ht, -⟩; exact h7 ht
  have h3 : ¬ vc3 r := by
    rintro ⟨-, hgt, -⟩; rw [hexp] at hgt; exact absurd hgt (by norm_num)
  have h4 : ¬ vc4 r := by
    rintro ⟨-, -, -, -, hs, -⟩
    simp only [sumaExoInaf] at hs
    linarith
  have h5 : vc5 r :=
    ⟨h7, hexp, hbi, higv, by simp [sumaExoInaf, hsuma], hbiivap, hivap⟩
  unfold ventasFiltro
  rw [if_neg h1, if_neg h2, if_neg h3, if_neg h4, if_pos h5]
  rfl

/-- C2 witness: the domestic-taxed branch theorem evaluated on a concrete
row with taxed base 100, taxed tax 18 and declared other charges 5. -/
theorem c2_witness :
    ventasFiltro ⟨1, 0, 100, 0, 18, 0, 0, 0, 0, 0, 5⟩ = ⟨1, 1, 100, 18, 5⟩ :=
  c2_domestic_taxed_branch ⟨1, 0, 100, 0, 18, 0, 0, 0, 0, 0, 5⟩
    (by norm_num) rfl (by norm_num) (by norm_num) (by norm_num) rfl rfl

/-! ### Claim C3 -/

/-- C3 counterexample: on the spec's own example input the invoice
processor emits the tax ID in UPPER-case hexadecimal, so its identifier
differs from the claimed lower-case rendering. -/
theorem c3_counterexample :
    facturaGenerateCui (some "20123456789") (some "1") (some "F001-45")
      ≠ some (specCuiFormat 20123456789 1 "F001" "45") := by decide

/-- C3 amended: the SIRE generators produce exactly the claimed format
(lower-case hex tax ID, 2-digit zero-padded type, hyphen-stripped
series-correlative concatenation); the invoice XML processor produces the
same shape but with UPPER-case hex and plain string zero-padding of the
type code. -/
theorem c3_cui_formats :
    (∀ (ruc tipoDoc serie numero : String) (r t : ℤ),
      pyParseInt ruc = some r →
      pyParseFloatTrunc (pyStrip tipoDoc) = some t →
      sireVentasGenerateCui (some ruc) (some tipoDoc) (some serie) (some numero)
        = some (specCuiFormat r t (pyStrip serie) (pyStrip numero)))
  ∧ (∀ (tipo rucP serie numero : String) (rucE : Option String) (p t : ℤ),
      pyStrip tipo ≠ "53" →
      pyParseInt rucP = some p →
      pyParseFloatTrunc (pyStrip tipo) = some t →
      sireComprasGenerateCui (some tipo) rucE (some rucP) (some serie) (some numero)
        = some (specCuiFormat p t (pyStrip serie) (pyStrip numero)))
  ∧ (∀ (ruc tipoDoc numero : String) (r : ℤ),
      ruc ≠ "" → tipoDoc ≠ "" → numero ≠ "" →
      pyParseInt ruc = some r →
      facturaGenerateCui (some ruc) (some tipoDoc) (some numero)
        = some (asciiUpperStr (pyHexLower r) ++ padLeftZero2 tipoDoc ++ stripDashes numero)) := by
  refine ⟨?_, ?_, ?_⟩
  · intro ruc tipoDoc serie numero r t hr ht
    simp only [sireVentasGenerateCui, hr, ht, specCuiFormat, stripDashes_concat]
  · intro tipo rucP serie numero rucE p t h hp ht
    simp only [sireComprasGenerateCui, h, if_false, if_neg h, hp, ht,
      specCuiFormat, stripDashes_concat]
    rfl
  · intro ruc tipoDoc numero r hruc htipo hnum hr
    simp [facturaGenerateCui, pyTruthy, String.isEmpty_iff, hruc, htipo, hnum, hr]

/-- C3 witness: the format theorem evaluated at the spec example; the SIRE
identifier equals the spec format and the invoice identifier equals its
upper-case variant. -/
theorem c3_witness :
    sireVentasGenerateCui (some "20123456789") (some "01") (some "F001") (some "45")
      = some (specCuiFormat 20123456789 1 "F001" "45") ∧
    facturaGenerateCui (some "20123456789") (some "1") (some "F001-45")
      = some (asciiUpperStr (pyHexLower 20123456789) ++ padLeftZero2 "1" ++
          stripDashes "F001-45") := by
  constructor
  · exact c3_cui_formats.1 "20123456789" "01" "F001" "45" 20123456789 1
      (by decide) (by decide)
  · exact c3_cui_formats.2.2 "20123456789" "1" "F001-45" 20123456789
      (by decide) (by decide) (by decide) (by decide)

/-! ### Claim C9 -/

/-- C9: in the compras identifier, the hex-encoded tax-id component is the
company RUC exactly when the stripped document-type code is 53 and the
counterparty identity number otherwise; only the selected component being
missing forces a null result. -/
theorem c9_compras_cui_tax_id_selection :
    (∀ (tipo serie numero : String) (rucP : Option String),
      pyStrip tipo = "53" →
      sireComprasGenerateCui (some tipo) none rucP (some serie) (some numero) = none)
  ∧ (∀ (tipo serie numero rucE : String) (rucP : Option String) (e : ℤ),
      pyStrip tipo = "53" →
      pyParseInt rucE = some e →
      sireComprasGenerateCui (some tipo) (some rucE) rucP (some serie) (some numero)
        = some (pyHexLower e ++ pad2Int 53 ++
            stripDashes (pyStrip serie ++ "-" ++ pyStrip numero)))
  ∧ (∀ (tipo serie numero : String) (rucE : Option String),
      pyStrip tipo ≠ "53" →
      sireComprasGenerateCui (some tipo) rucE none (some serie) (some numero) = none)
  ∧ (∀ (tipo serie numero rucP : String) (rucE : Option String) (p t : ℤ),
      pyStrip tipo ≠ "53" →
      pyParseInt rucP = some p →
      pyParseFloatTrunc (pyStrip tipo) = some t →
      sireComprasGenerateCui (some tipo) rucE (some rucP) (some serie) (some numero)
        = some (pyHexLower p ++ pad2Int t ++
            stripDashes (pyStrip serie ++ "-" ++ pyStrip numero))) := by
  refine ⟨?_, ?_, ?_, ?_⟩
  · intro tipo serie numero rucP h
    simp [sireComprasGenerateCui, h]
  · intro tipo serie numero rucE rucP e h he
    simp [sireComprasGenerateCui, h, he]
    rfl
  · intro tipo serie numero rucE h
    simp [sireComprasGenerateCui, h]
  · intro tipo serie numero rucP rucE p t h hp ht
    simp [sireComprasGenerateCui, h, hp, ht]

/-- C9 witness: with type code 53 the company RUC is encoded even though
the counterparty number is absent, and with another code the counterparty
number is encoded even though the company RUC is absent. -/
theorem c9_witness :
    sireComprasGenerateCui (some "53") (some "20123456789") none (some "F001") (some "45")
      = some "4af73951553F00145" ∧
    sireComprasGenerateCui (some "01") none (some "10456789012") (some "F001") (some "45")
      = some "26f45f01401F00145" ∧
    sireComprasGenerateCui (some "53") none (some "10456789012") (some "F001") (some "45")
      = none := by
  refine ⟨?_, ?_, ?_⟩
  · exact c9_compras_cui_tax_id_selection.2.1 "53" "F001" "45" "20123456789" none
      20123456789 (by decide) (by decide)
  · exact c9_compras_cui_tax_id_selection.2.2.2 "01" "F001" "45" "10456789012" none
      10456789012 1 (by decide) (by decide) (by decide)
  · exact c9_compras_cui_tax_id_selection.1 "53" "F001" "45" (some "10456789012")
      (by decide)

/-! ### Claim C5 -/

/-- C5: the classifier evaluates the rule table in its declared order and
returns the type of the first rule whose anchored, case-insensitive
pattern matches the whole filename; when no rule matches it returns the
unknown tag; and it is a function of the lowered filename alone, so names
equal up to letter case classify identically. -/
theorem c5_classifier_first_match :
    (∀ (name : String) (i : Nat), i < DOCUMENT_RULES.length →
      ruleMatches (DOCUMENT_RULES.getD i ("desconocido", [])).2 name = true →
      (∀ j, j < i → ruleMatches (DOCUMENT_RULES.getD j ("desconocido", [])).2 name = false) →
      identify_document_type name = (DOCUMENT_RULES.getD i ("desconocido", [])).1)
  ∧ (∀ name : String,
      (∀ rule ∈ DOCUMENT_RULES, ruleMatches rule.2 name = false) →
      identify_document_type name = "desconocido")
  ∧ (∀ n₁ n₂ : String, lowerStr n₁ = lowerStr n₂ →
      identify_document_type n₁ = identify_document_type n₂) := by
  refine ⟨?_, ?_, ?_⟩
  · intro name i hi hp hmin
    unfold identify_document_type
    rw [find?_first_of_getD ("desconocido", []) _ _ i hi hp hmin]
  · intro name h
    unfold identify_document_type
    rw [List.find?_eq_none.mpr (fun rule hr => by simp [h rule hr])]
  · intro n₁ n₂ h
    unfold identify_document_type ruleMatches matchToks
    rw [h]

/-- C5 witness: the first-match conjunct evaluated on a concrete invoice
filename (rule index 4, no earlier rule matching) and the fallback
conjunct on a name no rule matches. -/
theorem c5_witness :
    identify_document_type "FACTURAF001-4520123456789.xml" = "factura_xml" ∧
    identify_document_type "resumen_diario.xml" = "desconocido" := by
  constructor
  · exact c5_classifier_first_match.1 "FACTURAF001-4520123456789.xml" 4 (by decide)
      (by decide) (by decide)
  · exact c5_classifier_first_match.2.1 "resumen_diario.xml" (by decide)

/-! ### Claim C6 -/

/-- C6: a batch of one malformed and one well-formed invoice file of the
same classified type yields statistics with one error and one processed
file, the malformed file contributes no rows, and the aggregated header
table holds exactly one row. -/
theorem c6_batch_one_malformed_one_wellformed :
    (process_directory
      [⟨"FACTURAF001-4520123456789.xml", facturaProcessFile none⟩,
       ⟨"FACTURAF001-4620123456789.xml", facturaProcessFile (some ⟨2, 1⟩)⟩]).2.errors = 1 ∧
    (process_directory
      [⟨"FACTURAF001-4520123456789.xml", facturaProcessFile none⟩,
       ⟨"FACTURAF001-4620123456789.xml", facturaProcessFile (some ⟨2, 1⟩)⟩]).2.processedFiles
      = 1 ∧
    aggregatedRows
      (process_directory
        [⟨"FACTURAF001-4520123456789.xml", facturaProcessFile none⟩,
         ⟨"FACTURAF001-4620123456789.xml", facturaProcessFile (some ⟨2, 1⟩)⟩]).1 "header"
      = 1 := by decide

/-! ### Claim C10 -/

/-- Histogram bump adds exactly one to the total of the per-type counts. -/
theorem bumpType_sum (m : List (String × Nat)) (k : String) :
    ((bumpType m k).map Prod.snd).sum = (m.map Prod.snd).sum + 1 := by
  induction m with
  | nil => simp [bumpType]
  | cons a rest ih =>
    by_cases h : a.1 = k
    · simp [bumpType, h]
      omega
    · rcases a with ⟨k', v⟩
      simp only [bumpType, if_neg h, List.map_cons, List.sum_cons, ih]
      omega

/-- Any fold of the per-file step adds the folded file count to the sum of
the three outcome counters, adds it to the histogram total, and leaves the
stored total untouched. -/
theorem processStep_fold_counts (files : List BatchFile) :
    ∀ (acc : BatchResults × BatchStats),
      (files.foldl processStep acc).2.processedFiles
          + (files.foldl processStep acc).2.errors
          + (files.foldl processStep acc).2.unknownFiles
        = acc.2.processedFiles + acc.2.errors + acc.2.unknownFiles + files.length
      ∧ (((files.foldl processStep acc).2.byType.map Prod.snd).sum
          = (acc.2.byType.map Prod.snd).sum + files.length)
      ∧ (files.foldl processStep acc).2.totalFiles = acc.2.totalFiles := by
  induction files with
  | nil => intro acc; simp
  | cons f rest ih =>
    intro acc
    have hstep := ih (processStep acc f)
    refine ⟨?_, ?_, ?_⟩
    · rw [List.foldl_cons, hstep.1]
      have : (processStep acc f).2.processedFiles + (processStep acc f).2.errors
          + (processStep acc f).2.unknownFiles
          = acc.2.processedFiles + acc.2.errors + acc.2.unknownFiles + 1 := by
        unfold processStep
        rcases acc with ⟨res, stats⟩
        dsimp only
        split
        · rcases f.outcome with _ | tables
          · dsimp only; omega
          · dsimp only
            split <;> (dsimp only; omega)
        · dsimp only; omega
      rw [this]
      simp [List.length_cons]
      omega
    · rw [List.foldl_cons, hstep.2.1]
      have : ((processStep acc f).2.byType.map Prod.snd).sum
          = (acc.2.byType.map Prod.snd).sum + 1 := by
        unfold processStep
        rcases acc with ⟨res, stats⟩
        dsimp only
        split
        · rcases f.outcome with _ | tables
          · dsimp only; rw [bumpType_sum]
          · dsimp only
            split <;> (dsimp only; rw [bumpType_sum])
        · dsimp only; rw [bumpType_sum]
      rw [this]
      simp [List.length_cons]
      omega
    · rw [List.foldl_cons, hstep.2.2]
      unfold processStep
      rcases acc with ⟨res, stats⟩
      dsimp only
      split
      · rcases f.outcome with _ | tables
        · rfl
        · dsimp only
          split <;> rfl
      · rfl

/-- C10: at the end of every batch the counters partition the discovered
files, processed plus errors plus unknown equals the total, and the
per-type histogram values also sum to the total, however many files
failed. -/
theorem c10_stats_partition (files : List BatchFile) :
    (process_directory files).2.processedFiles + (process_directory files).2.errors
        + (process_directory files).2.unknownFiles
      = (process_directory files).2.totalFiles
    ∧ (((process_directory files).2.byType.map Prod.snd).sum
      = (process_directory files).2.totalFiles) := by
  have h := processStep_fold_counts files ([], ⟨files.length, 0, 0, 0, []⟩)
  unfold process_directory
  refine ⟨?_, ?_⟩
  · rw [h.1, h.2.2]; simp
  · rw [h.2.1, h.2.2]; simp

/-! ### Claim C7 -/

/-- A stored identifier is in the existence check exactly when it is both
stored and queried. -/
theorem mem_check_records_exist (t : DbTable) (keys : List String) (s : String) :
    s ∈ check_records_exist t keys ↔ some s ∈ t.cuiCol ∧ s ∈ keys := by
  unfold check_records_exist
  rw [List.mem_filter]
  constructor
  · rintro ⟨hmem, hk⟩
    rcases List.mem_filterMap.mp hmem with ⟨a, ha, hfa⟩
    cases a with
    | none => exact absurd hfa (by simp)
    | some x =>
      have hx : x = s := by simpa using hfa
      subst hx
      exact ⟨ha, List.elem_iff.mp hk⟩
  · rintro ⟨hmem, hk⟩
    exact ⟨List.mem_filterMap.mpr ⟨some s, hmem, rfl⟩, List.elem_iff.mpr hk⟩

/-- After one idempotent-insert run every non-null input identifier is
stored: it was either already present or freshly inserted. -/
theorem saveCabecerasRun_mem_col (t : DbTable) (df : List (Option String)) (s : String)
    (hs : some s ∈ df) : some s ∈ (saveCabecerasRun t df).cuiCol := by
  unfold saveCabecerasRun
  by_cases hc : (check_records_exist t (df.filterMap id)).contains s
  · have hstored : some s ∈ t.cuiCol :=
      ((mem_check_records_exist t _ s).mp (List.elem_iff.mp hc)).1
    dsimp only
    split
    · exact hstored
    · exact List.mem_append_left _ hstored
  · have hnew : some s ∈ df.filter (fun c =>
        match c with
        | some s => !(check_records_exist t (df.filterMap id)).contains s
        | none => true) :=
      List.mem_filter.mpr ⟨hs, by simpa using hc⟩
    dsimp only
    split
    · rename_i hemp
      rw [List.isEmpty_iff] at hemp
      rw [hemp] at hnew
      exact absurd hnew (List.not_mem_nil _)
    · exact List.mem_append_right _ hnew

/-- Two identical idempotent-insert runs on rows whose identifiers are all
non-null leave the table of the first run unchanged: every key is detected
and no new row is inserted. -/
theorem saveCabecerasRun_idem (t : DbTable) (df : List (Option String))
    (h : ∀ c ∈ df, c ≠ none) :
    saveCabecerasRun (saveCabecerasRun t df) df = saveCabecerasRun t df := by
  have hnil : df.filter (fun c =>
      match c with
      | some s => !(check_records_exist (saveCabecerasRun t df) (df.filterMap id)).contains s
      | none => true) = [] := by
    apply List.filter_eq_nil_iff.mpr
    intro c hc
    cases c with
    | none => exact absurd rfl (h none hc)
    | some s =>
      have hmem : some s ∈ (saveCabecerasRun t df).cuiCol := saveCabecerasRun_mem_col t df s hc
      have hkeys : s ∈ df.filterMap id := List.mem_filterMap.mpr ⟨some s, hc, rfl⟩
      have hin : s ∈ check_records_exist (saveCabecerasRun t df) (df.filterMap id) :=
        (mem_check_records_exist _ _ s).mpr ⟨hmem, hkeys⟩
      simpa using hin
  conv_lhs => rw [saveCabecerasRun]
  rw [hnil]
  rfl

/-- C7 counterexample: a header row with a null identifier is re-inserted
by the second identical run of the idempotent-insert branch, so the second
run inserts one new row rather than zero. -/
theorem c7_counterexample :
    (saveResultsToDbEntity "cabeceras" ["cui"]
        (saveResultsToDbEntity "cabeceras" ["cui"] ⟨[]⟩ [none]) [none]).cuiCol.length = 2 ∧
    (saveResultsToDbEntity "cabeceras" ["cui"] ⟨[]⟩ [none]).cuiCol.length = 1 := by decide

/-- C7 amended: for an idempotent-insert-enabled entity (table cabeceras
with cui among its mapped columns), when every aggregated row carries a
non-null identifier, a second run with identical input detects every
identifier already present and inserts zero new rows; rows with null
identifiers are exempt from detection and are re-inserted on every run. -/
theorem c7_idempotent_for_nonnull :
    ∀ (t : DbTable) (df : List (Option String)), (∀ c ∈ df, c ≠ none) →
      saveResultsToDbEntity "cabeceras" ["cui"]
          (saveResultsToDbEntity "cabeceras" ["cui"] t df) df
        = saveResultsToDbEntity "cabeceras" ["cui"] t df := by
  intro t df h
  by_cases hemp : df.isEmpty
  · simp [saveResultsToDbEntity, hemp]
  · have hf : df.isEmpty = false := by simpa using hemp
    simp only [saveResultsToDbEntity, hf, Bool.false_eq_true, if_false]
    rw [if_pos (by simp), if_pos (by simp)]
    exact saveCabecerasRun_idem t df h

/-- C7 witness: the amended theorem evaluated on an empty table and two
rows with distinct non-null identifiers. -/
theorem c7_witness :
    saveResultsToDbEntity "cabeceras" ["cui"]
        (saveResultsToDbEntity "cabeceras" ["cui"] ⟨[]⟩ [some "a", some "b"])
        [some "a", some "b"]
      = saveResultsToDbEntity "cabeceras" ["cui"] ⟨[]⟩ [some "a", some "b"] :=
  c7_idempotent_for_nonnull ⟨[]⟩ [some "a", some "b"] (by decide)

/-! ### Claim C8 -/

/-- C8: the ventas transformation keeps exactly the rows whose CAR SUNAT
cell is a 27-character string, the whole remaining pipeline (coercion,
identifier generation, rule engine) runs only on the retained rows, and a
file whose rows are dropped still processes successfully, with no error
result to count. -/
theorem c8_car_sunat_filter :
    (∀ r : RawVentasRow, keepCar27 r = true ↔ ∃ s, r.carSunat = some s ∧ s.length = 27)
  ∧ (∀ rows : List RawVentasRow,
      (sireVentasTransformData rows).length = (rows.filter keepCar27).length)
  ∧ (∀ rows : List RawVentasRow,
      sireVentasTransformData rows = sireVentasTransformData (rows.filter keepCar27))
  ∧ (∀ rows : List RawVentasRow, rows ≠ [] →
      sireVentasProcessFile (some rows) = some (sireVentasTransformData rows)) := by
  refine ⟨?_, ?_, ?_, ?_⟩
  · intro r
    cases h : r.carSunat with
    | none => simp [keepCar27, h]
    | some s => simp [keepCar27, h]
  · intro rows
    simp [sireVentasTransformData]
  · intro rows
    simp [sireVentasTransformData, List.filter_filter]
  · intro rows h
    cases rows with
    | nil => exact absurd rfl h
    | cons a l => rfl

/-- C8 witness: a non-empty extract whose single row has a 26-character
CAR SUNAT cell processes successfully into an empty table: the row is
silently dropped and no error is produced. -/
theorem c8_witness :
    sireVentasProcessFile
        (some [⟨none, some "ABCDEFGHIJKLMNOPQRSTUVWXYZ", none, none, none, none, none,
          none, none, none, none, none, none, none, none, none, none, none, none, none⟩])
      = some (sireVentasTransformData
          [⟨none, some "ABCDEFGHIJKLMNOPQRSTUVWXYZ", none, none, none, none, none,
            none, none, none, none, none, none, none, none, none, none, none, none, none⟩]) ∧
    sireVentasTransformData
        [⟨none, some "ABCDEFGHIJKLMNOPQRSTUVWXYZ", none, none, none, none, none,
          none, none, none, none, none, none, none, none, none, none, none, none, none⟩]
      = [] := by
  constructor
  · exact c8_car_sunat_filter.2.2.2 _ (by simp)
  · rfl

end ParserSunat
